import Mathlib

/-!
Verification of the fitcheck frontend match-scoring aggregation and
presentation pipeline.

The development shallowly embeds the relevant code:

* the data-transfer types of `apps/frontend/lib/types/analysis.ts` and
  `apps/frontend/lib/types/job.ts` (trimmed to the fields the dashboard
  logic inspects);
* the pure score-presentation helpers of the resume-analysis component
  (`getScoreColor`, `getScoreText`, the bar-width clamp, the
  overall-score fallback chain) and of `job-match-card.tsx`
  (`getMatchColor`, `getMatchBadgeColor`, `getMatchText`,
  `prioritySuggestions`);
* the `loadDashboardData` effectful aggregation of the FitScore
  dashboard component, embedded as a pure function of the outcomes of
  the four kinds of fetches it performs (the dashboard-summary, the
  job-list and the bulk-analysis fetch, plus one match-analysis fetch
  per displayed job), with the JavaScript object that accumulates the
  per-job match results modelled as an association list with
  overwrite-on-assignment semantics;
* the API-client request/response handling of
  `apps/frontend/lib/api/job.ts` and of the resume API client, embedded
  as the list of HTTP requests a call issues together with the error
  message it builds from a non-success response.

TypeScript numbers that the code only ever compares against integer
thresholds are embedded as `Int`.
-/

/-- Priority levels of an improvement suggestion
(`ImprovementSuggestion.priority` in `lib/types/analysis.ts`). -/
inductive Priority where
  | low
  | medium
  | high
  | critical
  deriving DecidableEq, Repr

/-- Categories of an improvement suggestion
(`ImprovementSuggestion.category` in `lib/types/analysis.ts`). -/
inductive Category where
  | skills
  | experience
  | education
  | formatting
  | keywords
  | content
  deriving DecidableEq, Repr

/-- One AI improvement suggestion (`lib/types/analysis.ts`). -/
structure ImprovementSuggestion where
  category : Category
  priority : Priority
  suggestion : String
  impact_score : Int
  specific_changes : Option (List String) := none
  deriving DecidableEq, Repr

/-- Sub-score breakdown of a match (`MatchAnalysis` in
`lib/types/analysis.ts`). -/
structure MatchAnalysis where
  skills_match : Int
  experience_match : Int
  education_match : Int
  keyword_coverage : Int
  missing_keywords : List String
  matched_keywords : List String
  improvement_priority : Priority
  deriving DecidableEq, Repr

/-- The central value object of the aggregation layer
(`ResumeJobMatchResult` in `lib/types/analysis.ts`). -/
structure ResumeJobMatchResult where
  match_score : Int
  detailed_analysis : MatchAnalysis
  recommendations : List ImprovementSuggestion
  ai_insights : String
  confidence_score : Int
  deriving DecidableEq, Repr

/-- A processed job (`ProcessedJob` in `lib/types/job.ts`), trimmed to
the fields the aggregation logic inspects: the dashboard component only
ever reads `job_id` (and passes the rest through untouched to the card
component). -/
structure ProcessedJob where
  job_id : String
  job_title : String
  deriving DecidableEq, Repr

/-- AI analysis score bundle (`AIAnalysisScores` in
`lib/types/analysis.ts`). -/
structure AIAnalysisScores where
  overall_score : Int
  ats_compatibility : Int
  keyword_optimization : Int
  structure_quality : Int
  content_relevance : Int
  experience_alignment : Int
  skills_match : Int
  education_relevance : Int
  deriving DecidableEq, Repr

/-- The `jobs_by_match_score` histogram carried by
`BulkAnalysisResult.analysis_summary` (`lib/types/dashboard.ts`, lines
109 to 114, with the documented ranges 90-100, 75-89, 60-74 and
below 60 in the adjacent comments). -/
structure ScoreBuckets where
  excellent : Nat
  good : Nat
  fair : Nat
  poor : Nat
  deriving DecidableEq, Repr

/-- The four score buckets of the bulk-analysis summary. -/
inductive Bucket where
  | excellent
  | good
  | fair
  | poor
  deriving DecidableEq, Repr

/-- Modelled from the spec: the server-side bucket classification behind
`jobs_by_match_score` is not part of the sources under `src/` (only its
type declaration with range comments in `lib/types/dashboard.ts` is).
Following the spec, a score falls into `excellent` on [90,100], `good`
on [75,90), `fair` on [60,75) and `poor` below 60. -/
def classifyScore (s : Int) : Bucket :=
  if 90 ≤ s then Bucket.excellent
  else if 75 ≤ s then Bucket.good
  else if 60 ≤ s then Bucket.fair
  else Bucket.poor

/-- Modelled from the spec: the bucket histogram over a list of match
scores, the client-side analogue of `jobs_by_match_score`. -/
def bucketHistogram (scores : List Int) : ScoreBuckets :=
  { excellent := scores.countP (fun s => classifyScore s == Bucket.excellent)
    good := scores.countP (fun s => classifyScore s == Bucket.good)
    fair := scores.countP (fun s => classifyScore s == Bucket.fair)
    poor := scores.countP (fun s => classifyScore s == Bucket.poor) }

/-- Score color band of the resume-analysis component
(`getScoreColor` in the dashboard sources). -/
def getScoreColor (value : Int) : String :=
  if value ≥ 80 then "text-green-500"
  else if value ≥ 60 then "text-yellow-500"
  else "text-red-500"

/-- Score label of the resume-analysis component (`getScoreText`). -/
def getScoreText (value : Int) : String :=
  if value ≥ 90 then "Excellent"
  else if value ≥ 80 then "Very Good"
  else if value ≥ 70 then "Good"
  else if value ≥ 60 then "Fair"
  else "Needs Improvement"

/-- Score color band of `job-match-card.tsx` (`getMatchColor`). -/
def getMatchColor (score : Int) : String :=
  if score ≥ 80 then "text-green-500"
  else if score ≥ 60 then "text-yellow-500"
  else "text-red-500"

/-- Badge background color band of `job-match-card.tsx`
(`getMatchBadgeColor`). -/
def getMatchBadgeColor (score : Int) : String :=
  if score ≥ 80 then "bg-green-500"
  else if score ≥ 60 then "bg-yellow-500"
  else "bg-red-500"

/-- Score label of `job-match-card.tsx` (`getMatchText`). -/
def getMatchText (score : Int) : String :=
  if score ≥ 90 then "Excellent Match"
  else if score ≥ 80 then "Very Good Match"
  else if score ≥ 70 then "Good Match"
  else if score ≥ 60 then "Fair Match"
  else "Needs Improvement"

/-- Priority-issue filter of `job-match-card.tsx`: the recommendations
whose priority is critical or high (`prioritySuggestions`). -/
def prioritySuggestions (m : ResumeJobMatchResult) : List ImprovementSuggestion :=
  m.recommendations.filter
    (fun r => r.priority == Priority.critical || r.priority == Priority.high)

/-- The per-job priority-issue count rendered in the card badge
(the badge text interpolates `prioritySuggestions.length`). -/
def priorityIssueCount (m : ResumeJobMatchResult) : Nat :=
  (prioritySuggestions m).length

/-- Whether the priority-issues badge is rendered
(the card guards the badge with `prioritySuggestions.length > 0`). -/
def priorityIssueBadgeShown (m : ResumeJobMatchResult) : Bool :=
  decide (0 < priorityIssueCount m)

/-- The match score figure shown by the card badge and the modal
overview, interpolated directly from `matchResult.match_score`. -/
def displayedMatchScore (m : ResumeJobMatchResult) : Int :=
  m.match_score

/-- Width of the overall-score bar in the resume-analysis modal:
the style sets the width to `Math.min(100, Math.max(0, overallScore))`
percent. -/
def barWidth (score : Int) : Int :=
  min 100 (max 0 score)

/-- JavaScript `a || b` over a possibly absent number: an absent value
and the number 0 are both falsy, so either falls through to `b`. -/
def jsOrInt (a : Option Int) (b : Int) : Int :=
  match a with
  | none => b
  | some x => if x = 0 then b else x

/-- The overall score the resume-analysis component displays:
`aiScores?.overall_score || score || 0`, where `aiScores` is the
optional `ai_analysis_scores` bundle and `score` the optional legacy
prop. -/
def overallScoreDisplayed (aiScores : Option AIAnalysisScores) (score : Option Int) : Int :=
  jsOrInt (aiScores.map (fun a => a.overall_score)) (jsOrInt score 0)

/-- Base URL of the API client layer; the default used when the
environment does not override it. -/
def API_URL : String := "http://localhost:8001"

/-- One HTTP request issued by an API client function, recorded as the
URL, the method and the JSON body fields. -/
structure HttpRequest where
  url : String
  method : String
  payload : List (String × String)
  deriving DecidableEq, Repr

/-- The HTTP requests one invocation of `uploadJobs`
(`lib/api/job.ts`) issues: one POST to `/api/v1/jobs/process-enhanced`
per job description in the input list (`JSON.stringify` drops the
`resume_id` field when the argument is absent). -/
def uploadJobsRequests (jobDescriptions : List String) (resumeId : Option String) :
    List HttpRequest :=
  jobDescriptions.map (fun description =>
    { url := API_URL ++ "/api/v1/jobs/process-enhanced"
      method := "POST"
      payload := [("job_description", description)] ++
        (match resumeId with
         | some r => [("resume_id", r)]
         | none => []) })

/-- The error message `uploadJobs` throws on a non-success response:
the template includes the status and the response body text. -/
def uploadJobsErrorMessage (status : Nat) (errorText : String) : String :=
  "Job upload failed: " ++ toString status ++ " - " ++ errorText

/-- The error message `uploadJobDescriptions` (resume API client)
throws on a non-success response. The function receives the response
body but its template interpolates only the status, so the body
argument is ignored. -/
def uploadJobDescriptionsErrorMessage (status : Nat) (_bodyText : String) : String :=
  "Upload failed with status " ++ toString status

/-- The single HTTP request one invocation of `getResumeJobs`
(`lib/api/job.ts`) issues. -/
def getResumeJobsRequest (resumeId : String) : HttpRequest :=
  { url := API_URL ++ "/api/v1/jobs?resume_id=" ++ resumeId
    method := "GET"
    payload := [] }

/-- The error message `getResumeJobs` throws on a non-success
response. -/
def getResumeJobsErrorMessage (status : Nat) (errorText : String) : String :=
  "Failed to get resume jobs: " ++ toString status ++ " - " ++ errorText

/-- Response handling of `getResumeJobs`: on success the parsed body is
returned with `data.jobs || []` applied; otherwise the descriptive
error is thrown. -/
def getResumeJobsResult (ok : Bool) (status : Nat) (bodyText : String)
    (jobsField : Option (List ProcessedJob)) : Except String (List ProcessedJob) :=
  if ok then Except.ok (jobsField.getD [])
  else Except.error (getResumeJobsErrorMessage status bodyText)

/-- The single HTTP request one invocation of `analyzeResumeJobMatch`
(resume API client) issues. -/
def analyzeMatchRequest (resumeId jobId : String) : HttpRequest :=
  { url := API_URL ++ "/api/v1/resumes/analyze-match"
    method := "POST"
    payload := [("resume_id", resumeId), ("job_id", jobId)] }

/-- The error message `analyzeResumeJobMatch` throws on a non-success
response. -/
def analyzeMatchErrorMessage (status : Nat) (errorText : String) : String :=
  "Match analysis failed: " ++ toString status ++ " - " ++ errorText

/-- Response handling of `analyzeResumeJobMatch`: the parsed body on
success, the descriptive error otherwise. -/
def analyzeMatchResponse (ok : Bool) (status : Nat) (bodyText : String)
    (parsed : ResumeJobMatchResult) : Except String ResumeJobMatchResult :=
  if ok then Except.ok parsed
  else Except.error (analyzeMatchErrorMessage status bodyText)

/-- The match map the dashboard accumulates, modelled as an association
list from job identifier to match result (the JavaScript object
`matchMap`), in key-insertion order. -/
abbrev MatchMap := List (String × ResumeJobMatchResult)

/-- JavaScript property assignment `m[key] = value`: replace the value
in place when the key is present, append the pair otherwise. -/
def objSet (m : MatchMap) (key : String) (value : ResumeJobMatchResult) : MatchMap :=
  if m.any (fun p => p.1 == key) then
    m.map (fun p => if p.1 == key then (key, value) else p)
  else
    m ++ [(key, value)]

/-- One step of the `matchResults.forEach` fold: a null settled result
is skipped, a non-null one is written into the map under its job
identifier. -/
def applySettled (acc : MatchMap) (r : Option (String × ResumeJobMatchResult)) : MatchMap :=
  match r with
  | none => acc
  | some (k, v) => objSet acc k v

/-- The fold that builds `matchMap` from the settled per-job results. -/
def buildMatchMap (settled : List (Option (String × ResumeJobMatchResult))) : MatchMap :=
  settled.foldl applySettled []

/-- JavaScript property read `m[key]` on an accumulated match map. -/
def lookupKey (m : MatchMap) (key : String) : Option ResumeJobMatchResult :=
  (m.find? (fun p => p.1 == key)).map (fun p => p.2)

/-- The key list of a match map. -/
def mapKeys (m : MatchMap) : List String :=
  m.map (fun p => p.1)

/-- The job identifiers of the non-null entries of a settled result
list. -/
def settledKeys (settled : List (Option (String × ResumeJobMatchResult))) : List String :=
  mapKeys (settled.filterMap id)

/-- The per-job arm of the match fan-out: `analyzeResumeJobMatch` is
awaited inside a try/catch that returns the pair on success and null on
failure. -/
def settleMatch (matchFetch : ProcessedJob → Except Unit ResumeJobMatchResult)
    (j : ProcessedJob) : Option (String × ResumeJobMatchResult) :=
  match matchFetch j with
  | Except.ok m => some (j.job_id, m)
  | Except.error _ => none

/-- The component state `loadDashboardData` leaves behind, together
with the job identifiers it issued match-analysis requests for. The
dashboard, job-list and bulk-analysis payloads are opaque to the
aggregation (type parameters), exactly as in the source, which never
inspects them. -/
structure DashboardState (D B : Type) where
  dashboardData : Option D
  recentJobs : List ProcessedJob
  bulkAnalysis : Option B
  jobMatches : MatchMap
  issuedMatchRequests : List String
  error : Option String
  deriving Repr

/-- The `loadDashboardData` effect of the FitScore dashboard component,
as a pure function of the fetch outcomes. The three initial fetches
carry `.catch` fallbacks (null, empty list, null); the per-job match
requests go through `settleMatch`; the guard `jobs.length > 0` around
the fan-out and the `jobs.slice(0, 6)` cap are kept as in the source.
The outer catch never fires because every awaited step is individually
caught, so `error` stays null. -/
def loadDashboardData {D B : Type} (dashR : Except Unit D)
    (jobsR : Except Unit (List ProcessedJob)) (bulkR : Except Unit B)
    (matchFetch : ProcessedJob → Except Unit ResumeJobMatchResult) :
    DashboardState D B :=
  let dashboard : Option D :=
    match dashR with
    | Except.ok d => some d
    | Except.error _ => none
  let jobs : List ProcessedJob :=
    match jobsR with
    | Except.ok js => js
    | Except.error _ => []
  let bulk : Option B :=
    match bulkR with
    | Except.ok b => some b
    | Except.error _ => none
  if 0 < jobs.length then
    let settled := (jobs.take 6).map (settleMatch matchFetch)
    { dashboardData := dashboard
      recentJobs := jobs.take 6
      bulkAnalysis := bulk
      jobMatches := buildMatchMap settled
      issuedMatchRequests := (jobs.take 6).map (fun j => j.job_id)
      error := none }
  else
    { dashboardData := dashboard
      recentJobs := jobs.take 6
      bulkAnalysis := bulk
      jobMatches := []
      issuedMatchRequests := []
      error := none }

/-- Two demo jobs used to instantiate the aggregation theorems. -/
def demoJobs : List ProcessedJob :=
  [{ job_id := "j1", job_title := "Backend Engineer" },
   { job_id := "j2", job_title := "Data Analyst" }]

/-- A demo match result used to instantiate the aggregation theorems. -/
def demoMatch : ResumeJobMatchResult :=
  { match_score := 85
    detailed_analysis :=
      { skills_match := 80
        experience_match := 70
        education_match := 60
        keyword_coverage := 75
        missing_keywords := ["terraform"]
        matched_keywords := ["python"]
        improvement_priority := Priority.medium }
    recommendations := []
    ai_insights := "solid fit"
    confidence_score := 90 }

/-- A second demo match result with a different score. -/
def demoMatchB : ResumeJobMatchResult :=
  { demoMatch with match_score := 72, ai_insights := "decent fit" }

/-- A demo fan-out outcome: the match request for job j1 succeeds, the
one for job j2 fails with a server error. -/
def demoFetch (j : ProcessedJob) : Except Unit ResumeJobMatchResult :=
  if j.job_id == "j1" then Except.ok demoMatch else Except.error ()

/-! Helper lemmas shared by the claim theorems. -/

theorem find?_eq_filter_head? {α : Type} (p : α → Bool) (l : List α) :
    l.find? p = (l.filter p).head? := by
  induction l with
  | nil => rfl
  | cons a l ih =>
    cases hpa : p a with
    | true => rw [List.find?_cons_of_pos _ hpa, List.filter_cons, hpa]; rfl
    | false =>
      rw [List.find?_cons_of_neg, List.filter_cons, hpa, if_neg (by simp), ih]
      simp [hpa]

theorem bucketCounts_sum (scores : List Int) :
    (bucketHistogram scores).excellent + (bucketHistogram scores).good +
      (bucketHistogram scores).fair + (bucketHistogram scores).poor = scores.length := by
  induction scores with
  | nil => rfl
  | cons s scores ih =>
    simp only [bucketHistogram] at ih ⊢
    simp only [List.countP_cons, List.length_cons]
    rcases h : classifyScore s <;> simp [h] <;> omega

theorem settledKeys_cons_none (rest : List (Option (String × ResumeJobMatchResult))) :
    settledKeys (none :: rest) = settledKeys rest := by
  simp [settledKeys, mapKeys, List.filterMap_cons]

theorem settledKeys_cons_some (p : String × ResumeJobMatchResult)
    (rest : List (Option (String × ResumeJobMatchResult))) :
    settledKeys (some p :: rest) = p.1 :: settledKeys rest := by
  simp [settledKeys, mapKeys, List.filterMap_cons]

theorem objSet_of_not_mem (m : MatchMap) (k : String) (v : ResumeJobMatchResult)
    (h : ∀ p ∈ m, p.1 ≠ k) : objSet m k v = m ++ [(k, v)] := by
  have hany : m.any (fun p => p.1 == k) = false := by
    rw [List.any_eq_false]
    intro p hp
    simp [h p hp]
  simp [objSet, hany]

theorem foldl_applySettled_eq :
    ∀ (settled : List (Option (String × ResumeJobMatchResult))) (acc : MatchMap),
      (∀ k ∈ mapKeys acc, k ∉ settledKeys settled) →
      (settledKeys settled).Nodup →
      settled.foldl applySettled acc = acc ++ settled.filterMap id := by
  intro settled
  induction settled with
  | nil => intro acc _ _; simp
  | cons r rest ih =>
    intro acc hdisj hnd
    cases r with
    | none =>
      rw [settledKeys_cons_none] at hdisj hnd
      simpa [applySettled] using ih acc hdisj hnd
    | some p =>
      obtain ⟨k, v⟩ := p
      rw [settledKeys_cons_some] at hdisj hnd
      rw [List.nodup_cons] at hnd
      obtain ⟨hknotrest, hndrest⟩ := hnd
      have hknotacc : ∀ q ∈ acc, q.1 ≠ k := by
        intro q hq hqk
        have hk : k ∈ mapKeys acc := by
          simp only [mapKeys, List.mem_map]
          exact ⟨q, hq, hqk⟩
        exact hdisj k hk (List.mem_cons_self _ _)
      have hstep : applySettled acc (some (k, v)) = acc ++ [(k, v)] := by
        simp only [applySettled]
        exact objSet_of_not_mem acc k v hknotacc
      have hdisj2 : ∀ k2 ∈ mapKeys (acc ++ [(k, v)]), k2 ∉ settledKeys rest := by
        intro k2 hk2
        simp only [mapKeys, List.map_append, List.mem_append, List.map_cons,
          List.map_nil, List.mem_singleton] at hk2
        rcases hk2 with hk2acc | rfl
        · intro hk2rest
          exact hdisj k2 hk2acc (List.mem_cons_of_mem _ hk2rest)
        · exact hknotrest
      rw [List.foldl_cons, hstep, ih (acc ++ [(k, v)]) hdisj2 hndrest]
      simp [List.filterMap_cons, List.append_assoc]

theorem buildMatchMap_eq_filterMap (settled : List (Option (String × ResumeJobMatchResult)))
    (hnd : (settledKeys settled).Nodup) :
    buildMatchMap settled = settled.filterMap id := by
  have h := foldl_applySettled_eq settled [] (by simp [mapKeys]) hnd
  simpa [buildMatchMap] using h

theorem filter_key_length_le_one (m : MatchMap) (k : String)
    (h : (mapKeys m).Nodup) :
    (m.filter (fun p => p.1 == k)).length ≤ 1 := by
  induction m with
  | nil => simp
  | cons q m ih =>
    simp only [mapKeys, List.map_cons, List.nodup_cons] at h
    obtain ⟨hq, hm⟩ := h
    rw [List.filter_cons]
    cases hqk : (q.1 == k) with
    | false =>
      simpa using ih (by simpa [mapKeys] using hm)
    | true =>
      have hqk2 : q.1 = k := beq_iff_eq.mp hqk
      have hrest : m.filter (fun p => p.1 == k) = [] := by
        rw [List.filter_eq_nil_iff]
        intro p hp hpk
        apply hq
        simp only [List.mem_map]
        exact ⟨p, hp, by rw [beq_iff_eq.mp hpk, hqk2]⟩
      simp [hrest]

theorem lookupKey_perm (m1 m2 : MatchMap) (hperm : m1.Perm m2)
    (h1 : (mapKeys m1).Nodup) (k : String) :
    lookupKey m1 k = lookupKey m2 k := by
  have hf : (m1.filter (fun p => p.1 == k)).Perm (m2.filter (fun p => p.1 == k)) :=
    hperm.filter _
  have hl1 := filter_key_length_le_one m1 k h1
  have heq : m1.filter (fun p => p.1 == k) = m2.filter (fun p => p.1 == k) := by
    rcases hc : m1.filter (fun p => p.1 == k) with _ | ⟨a, rest⟩
    · rw [hc] at hf
      rw [hc]
      exact (List.Perm.eq_nil hf.symm).symm
    · rcases rest with _ | ⟨b, t⟩
      · rw [hc] at hf
        rw [hc]
        exact (List.perm_singleton.mp hf.symm).symm
      · rw [hc] at hl1
        simp at hl1
  unfold lookupKey
  rw [find?_eq_filter_head?, find?_eq_filter_head?, heq]

theorem settledKeys_perm (l1 l2 : List (Option (String × ResumeJobMatchResult)))
    (h : l1.Perm l2) : (settledKeys l1).Perm (settledKeys l2) :=
  (h.filterMap id).map _

theorem filterMap_settleMatch_keys_sublist
    (matchFetch : ProcessedJob → Except Unit ResumeJobMatchResult) (t : List ProcessedJob) :
    ((t.filterMap (settleMatch matchFetch)).map (fun p => p.1)).Sublist
      (t.map (fun j => j.job_id)) := by
  induction t with
  | nil => simp
  | cons j t ih =>
    cases hf : matchFetch j with
    | error e =>
      have hm : settleMatch matchFetch j = none := by simp [settleMatch, hf]
      rw [List.filterMap_cons, hm, List.map_cons]
      exact ih.cons _
    | ok m =>
      have hm : settleMatch matchFetch j = some (j.job_id, m) := by
        simp [settleMatch, hf]
      rw [List.filterMap_cons, hm, List.map_cons, List.map_cons]
      exact ih.cons₂ _

theorem lookup_settled_iff (matchFetch : ProcessedJob → Except Unit ResumeJobMatchResult) :
    ∀ t : List ProcessedJob, (t.map (fun j => j.job_id)).Nodup →
      ∀ (k : String) (m : ResumeJobMatchResult),
        lookupKey (t.filterMap (settleMatch matchFetch)) k = some m ↔
          ∃ j ∈ t, j.job_id = k ∧ matchFetch j = Except.ok m := by
  intro t
  induction t with
  | nil =>
    intro _ k m
    simp [lookupKey]
  | cons j t ih =>
    intro hnd k m
    rw [List.map_cons, List.nodup_cons] at hnd
    obtain ⟨hj, hndt⟩ := hnd
    cases hf : matchFetch j with
    | error e =>
      have hm : settleMatch matchFetch j = none := by simp [settleMatch, hf]
      rw [List.filterMap_cons, hm, ih hndt k m]
      constructor
      · rintro ⟨j2, hj2, hk, hok⟩
        exact ⟨j2, List.mem_cons_of_mem _ hj2, hk, hok⟩
      · rintro ⟨j2, hj2, hk, hok⟩
        rcases List.mem_cons.mp hj2 with rfl | hj2t
        · rw [hf] at hok
          cases hok
        · exact ⟨j2, hj2t, hk, hok⟩
    | ok m0 =>
      have hm : settleMatch matchFetch j = some (j.job_id, m0) := by
        simp [settleMatch, hf]
      rw [List.filterMap_cons, hm]
      by_cases hk : j.job_id = k
      · subst hk
        have hfind : lookupKey ((j.job_id, m0) :: t.filterMap (settleMatch matchFetch))
            j.job_id = some m0 := by
          simp [lookupKey, List.find?_cons_of_pos]
        rw [hfind]
        constructor
        · intro h
          exact ⟨j, List.mem_cons_self _ _, rfl, by rw [Option.some.injEq] at h; rw [← h]; exact hf⟩
        · rintro ⟨j2, hj2, hk2, hok⟩
          rcases List.mem_cons.mp hj2 with rfl | hj2t
          · rw [hf] at hok
            rw [Option.some.injEq]
            exact (Except.ok.injEq _ _ ▸ hok : m0 = m)
          · exfalso
            apply hj
            rw [← hk2]
            exact List.mem_map_of_mem (fun j => j.job_id) hj2t
      · have hfind : lookupKey ((j.job_id, m0) :: t.filterMap (settleMatch matchFetch)) k =
            lookupKey (t.filterMap (settleMatch matchFetch)) k := by
          have hb : ((j.job_id, m0).1 == k) = false := by
            simp [hk]
          simp only [lookupKey]
          rw [List.find?_cons_of_neg _ (by simp [hb])]
        rw [hfind, ih hndt k m]
        constructor
        · rintro ⟨j2, hj2, hk2, hok⟩
          exact ⟨j2, List.mem_cons_of_mem _ hj2, hk2, hok⟩
        · rintro ⟨j2, hj2, hk2, hok⟩
          rcases List.mem_cons.mp hj2 with rfl | hj2t
          · exact absurd hk2 hk
          · exact ⟨j2, hj2t, hk2, hok⟩

theorem loadDashboardData_unfold {D B : Type} (dashR : Except Unit D)
    (jobsR : Except Unit (List ProcessedJob)) (bulkR : Except Unit B)
    (matchFetch : ProcessedJob → Except Unit ResumeJobMatchResult) :
    loadDashboardData dashR jobsR bulkR matchFetch =
      { dashboardData := match dashR with
          | Except.ok d => some d
          | Except.error _ => none
        recentJobs := (match jobsR with
          | Except.ok js => js
          | Except.error _ => ([] : List ProcessedJob)).take 6
        bulkAnalysis := match bulkR with
          | Except.ok b => some b
          | Except.error _ => none
        jobMatches := buildMatchMap (((match jobsR with
          | Except.ok js => js
          | Except.error _ => ([] : List ProcessedJob)).take 6).map (settleMatch matchFetch))
        issuedMatchRequests := ((match jobsR with
          | Except.ok js => js
          | Except.error _ => ([] : List ProcessedJob)).take 6).map
            (fun (j : ProcessedJob) => j.job_id)
        error := none } := by
  cases jobsR with
  | error e => simp [loadDashboardData, buildMatchMap]
  | ok js =>
    cases js with
    | nil => simp [loadDashboardData, buildMatchMap]
    | cons j t => simp [loadDashboardData]

/-! Claim theorems. -/

/-- C2: the score-bucket classification puts a score s into excellent
iff 90 ≤ s ≤ 100, good iff 75 ≤ s < 90, fair iff 60 ≤ s < 75 and poor
iff s < 60; each score in [0,100] falls into exactly one bucket, the
four counts of the histogram sum to the number of scored jobs, and the
score list [95, 72, 40] yields the histogram
excellent 1, good 0, fair 1, poor 1. -/
theorem bucket_classification_spec :
    (∀ s : Int, 0 ≤ s → s ≤ 100 →
      ((classifyScore s = Bucket.excellent ↔ 90 ≤ s ∧ s ≤ 100) ∧
       (classifyScore s = Bucket.good ↔ 75 ≤ s ∧ s < 90) ∧
       (classifyScore s = Bucket.fair ↔ 60 ≤ s ∧ s < 75) ∧
       (classifyScore s = Bucket.poor ↔ s < 60))) ∧
    (∀ scores : List Int,
      (bucketHistogram scores).excellent + (bucketHistogram scores).good +
        (bucketHistogram scores).fair + (bucketHistogram scores).poor = scores.length) ∧
    bucketHistogram [95, 72, 40] = { excellent := 1, good := 0, fair := 1, poor := 1 } := by
  refine ⟨?_, bucketCounts_sum, by decide⟩
  intro s h0 h100
  unfold classifyScore
  split_ifs with h90 h75 h60 <;> refine ⟨?_, ?_, ?_, ?_⟩ <;> simp <;> omega

/-- C2 witness: at the concrete score 95 the classification is
excellent, via the claim theorem applied at 95. -/
theorem bucket_classification_spec_witness :
    classifyScore 95 = Bucket.excellent ↔ 90 ≤ (95 : Int) ∧ (95 : Int) ≤ 100 :=
  (bucket_classification_spec.1 95 (by decide) (by decide)).1

/-- C5 counterexample: the label mapping is not identical in every
component that displays a score: at score 95 the job-match card labels
the score "Excellent Match" while the resume-analysis component labels
it "Excellent". -/
theorem score_label_not_identical :
    getMatchText 95 = "Excellent Match" ∧ getScoreText 95 = "Excellent" ∧
      getMatchText 95 ≠ getScoreText 95 := by
  refine ⟨rfl, rfl, by decide⟩

/-- C5 amended: both components use the identical color bands (green
for score at least 80, yellow for at least 60 below 80, red below 60),
and the identical label thresholds (90, 80, 70, 60); the
resume-analysis labels are Excellent, Very Good, Good, Fair and Needs
Improvement, while the job-match card uses the same labels with the
word Match appended except for the bottom band. -/
theorem score_presentation_bands (s : Int) :
    getMatchColor s = getScoreColor s ∧
    (getScoreColor s = "text-green-500" ↔ 80 ≤ s) ∧
    (getScoreColor s = "text-yellow-500" ↔ 60 ≤ s ∧ s < 80) ∧
    (getScoreColor s = "text-red-500" ↔ s < 60) ∧
    (getMatchBadgeColor s = "bg-green-500" ↔ 80 ≤ s) ∧
    (getMatchBadgeColor s = "bg-yellow-500" ↔ 60 ≤ s ∧ s < 80) ∧
    (getMatchBadgeColor s = "bg-red-500" ↔ s < 60) ∧
    (getScoreText s = "Excellent" ↔ 90 ≤ s) ∧
    (getScoreText s = "Very Good" ↔ 80 ≤ s ∧ s < 90) ∧
    (getScoreText s = "Good" ↔ 70 ≤ s ∧ s < 80) ∧
    (getScoreText s = "Fair" ↔ 60 ≤ s ∧ s < 70) ∧
    (getScoreText s = "Needs Improvement" ↔ s < 60) ∧
    (getMatchText s = "Excellent Match" ↔ 90 ≤ s) ∧
    (getMatchText s = "Very Good Match" ↔ 80 ≤ s ∧ s < 90) ∧
    (getMatchText s = "Good Match" ↔ 70 ≤ s ∧ s < 80) ∧
    (getMatchText s = "Fair Match" ↔ 60 ≤ s ∧ s < 70) ∧
    (getMatchText s = "Needs Improvement" ↔ s < 60) := by
  unfold getMatchColor getScoreColor getMatchBadgeColor getScoreText getMatchText
  split_ifs with h90 h80 h70 h60 <;>
    refine ⟨rfl, ?_, ?_, ?_, ?_, ?_, ?_, ?_, ?_, ?_, ?_, ?_, ?_, ?_, ?_, ?_, ?_⟩ <;>
    simp <;> omega

/-- C6: a recommendation is counted as a priority issue iff its
priority is critical or high; the per-job count is the size of that
filtered subset; and the count never feeds back into the displayed
match score, which depends only on the match score field. -/
theorem priority_issue_filter_spec (m : ResumeJobMatchResult) :
    (∀ r, r ∈ prioritySuggestions m ↔
        r ∈ m.recommendations ∧ (r.priority = Priority.critical ∨ r.priority = Priority.high)) ∧
    priorityIssueCount m = (prioritySuggestions m).length ∧
    (priorityIssueBadgeShown m = true ↔
      ∃ r ∈ m.recommendations, r.priority = Priority.critical ∨ r.priority = Priority.high) ∧
    (∀ recs : List ImprovementSuggestion,
      displayedMatchScore { m with recommendations := recs } = displayedMatchScore m) := by
  refine ⟨?_, rfl, ?_, fun _ => rfl⟩
  · intro r
    simp [prioritySuggestions, List.mem_filter]
  · simp only [priorityIssueBadgeShown, priorityIssueCount, decide_eq_true_eq,
      List.length_pos, ← List.isEmpty_iff, Bool.not_eq_true]
    constructor
    · intro h
      rcases hne : prioritySuggestions m with _ | ⟨r, rest⟩
      · rw [hne] at h
        simp at h
      · have hr : r ∈ prioritySuggestions m := by
          rw [hne]
          exact List.mem_cons_self _ _
        rw [prioritySuggestions, List.mem_filter] at hr
        refine ⟨r, hr.1, ?_⟩
        have := hr.2
        simp at this
        exact this
    · rintro ⟨r, hr, hp⟩
      intro hempty
      have hrmem : r ∈ prioritySuggestions m := by
        rw [prioritySuggestions, List.mem_filter]
        refine ⟨hr, ?_⟩
        simp [hp]
      rw [hempty] at hrmem
      cases hrmem

/-- C7: for every score value, also outside [0,100], the rendered bar
width equals the clamp of the score to [0,100], so the width always
lies between 0 and 100. -/
theorem bar_width_clamped (s : Int) :
    barWidth s = max 0 (min 100 s) ∧ 0 ≤ barWidth s ∧ barWidth s ≤ 100 := by
  simp only [barWidth, Int.min_def, Int.max_def]
  split_ifs <;> omega

/-- C10: the displayed overall score equals the AI overall score only
when that score is present and nonzero; an AI overall score of exactly
zero is indistinguishable from an absent one and falls back to the
legacy score prop, which itself falls back to zero when absent or
zero. -/
theorem overall_score_fallback_spec :
    (∀ (a : AIAnalysisScores) (legacy : Option Int), a.overall_score ≠ 0 →
      overallScoreDisplayed (some a) legacy = a.overall_score) ∧
    (∀ (a : AIAnalysisScores) (legacy : Option Int), a.overall_score = 0 →
      overallScoreDisplayed (some a) legacy = overallScoreDisplayed none legacy) ∧
    (∀ y : Int, y ≠ 0 → overallScoreDisplayed none (some y) = y) ∧
    overallScoreDisplayed none (some 0) = 0 ∧
    overallScoreDisplayed none none = 0 := by
  refine ⟨?_, ?_, ?_, rfl, rfl⟩
  · intro a legacy h
    simp [overallScoreDisplayed, jsOrInt, h]
  · intro a legacy h
    simp [overallScoreDisplayed, jsOrInt, h]
  · intro y h
    simp [overallScoreDisplayed, jsOrInt, h]

/-- C10 witness: a concrete AI score bundle with overall score zero is
displayed as the legacy score 55, via the claim theorem. -/
theorem overall_score_fallback_spec_witness :
    overallScoreDisplayed (some ⟨0, 70, 60, 50, 40, 30, 20, 10⟩) (some 55) =
      overallScoreDisplayed none (some 55) :=
  overall_score_fallback_spec.2.1 ⟨0, 70, 60, 50, 40, 30, 20, 10⟩ (some 55) rfl

/-- C3 counterexample: uploadJobs issues one HTTP call per job
description, so a two-description invocation performs two calls, not
one; and the error message of uploadJobDescriptions is the same for two
different response bodies, so it cannot carry the raw body text. -/
theorem api_client_single_call_counterexample :
    (uploadJobsRequests ["first job description", "second job description"] none).length = 2 ∧
    (2 : Nat) ≠ 1 ∧
    uploadJobDescriptionsErrorMessage 500 "body A" =
      uploadJobDescriptionsErrorMessage 500 "body B" ∧
    ("body A" : String) ≠ "body B" := by
  exact ⟨rfl, by decide, rfl, by decide⟩

/-- C3 amended: every API client function except uploadJobs performs
exactly one HTTP call per invocation, while uploadJobs performs one per
job description; on a non-success status each function throws a
descriptive error, and every message except that of
uploadJobDescriptions carries both the status code and the raw body
text, while uploadJobDescriptions interpolates only the status; on
success the parsed JSON body is returned. -/
theorem api_client_calls_and_errors :
    (∀ (descs : List String) (rid : Option String),
      (uploadJobsRequests descs rid).length = descs.length) ∧
    (∀ (status : Nat) (body : String), ∃ pre mid,
      uploadJobsErrorMessage status body = pre ++ toString status ++ mid ++ body) ∧
    (∀ (status : Nat) (body : String), ∃ pre mid,
      getResumeJobsErrorMessage status body = pre ++ toString status ++ mid ++ body) ∧
    (∀ (status : Nat) (body : String), ∃ pre mid,
      analyzeMatchErrorMessage status body = pre ++ toString status ++ mid ++ body) ∧
    (∀ (status : Nat) (b1 b2 : String),
      uploadJobDescriptionsErrorMessage status b1 =
        uploadJobDescriptionsErrorMessage status b2) ∧
    (∀ (status : Nat) (body : String) (jobsField : Option (List ProcessedJob)),
      getResumeJobsResult false status body jobsField =
        Except.error (getResumeJobsErrorMessage status body)) ∧
    (∀ (status : Nat) (body : String) (jobsField : Option (List ProcessedJob)),
      getResumeJobsResult true status body jobsField = Except.ok (jobsField.getD [])) ∧
    (∀ (status : Nat) (body : String) (parsed : ResumeJobMatchResult),
      analyzeMatchResponse false status body parsed =
        Except.error (analyzeMatchErrorMessage status body)) ∧
    (∀ (status : Nat) (body : String) (parsed : ResumeJobMatchResult),
      analyzeMatchResponse true status body parsed = Except.ok parsed) := by
  refine ⟨?_, ?_, ?_, ?_, ?_, ?_, ?_, ?_, ?_⟩
  · intro descs rid
    simp [uploadJobsRequests]
  · intro status body
    exact ⟨"Job upload failed: ", " - ", rfl⟩
  · intro status body
    exact ⟨"Failed to get resume jobs: ", " - ", rfl⟩
  · intro status body
    exact ⟨"Match analysis failed: ", " - ", rfl⟩
  · intro status b1 b2
    rfl
  · intro status body jobsField
    rfl
  · intro status body jobsField
    rfl
  · intro status body parsed
    rfl
  · intro status body parsed
    rfl

/-- C1: for every job list and every outcome of the per-job
match-analysis requests, with the displayed jobs carrying pairwise
distinct identifiers, the final map holds exactly the successful
results (a key maps to a match result iff a displayed job with that
identifier got that result back), and no page-level error state is set
by per-item failures. -/
theorem fanout_fault_isolation {D B : Type} (dashR : Except Unit D) (bulkR : Except Unit B)
    (jobs : List ProcessedJob)
    (matchFetch : ProcessedJob → Except Unit ResumeJobMatchResult)
    (hnd : ((jobs.take 6).map (fun j => j.job_id)).Nodup) :
    (loadDashboardData dashR (Except.ok jobs) bulkR matchFetch).error = none ∧
    ∀ (k : String) (m : ResumeJobMatchResult),
      lookupKey (loadDashboardData dashR (Except.ok jobs) bulkR matchFetch).jobMatches k
          = some m ↔
        ∃ j ∈ jobs.take 6, j.job_id = k ∧ matchFetch j = Except.ok m := by
  rw [loadDashboardData_unfold]
  refine ⟨rfl, ?_⟩
  intro k m
  have hfm : ((jobs.take 6).map (settleMatch matchFetch)).filterMap id =
      (jobs.take 6).filterMap (settleMatch matchFetch) := by
    rw [List.filterMap_map]
    rfl
  have hndkeys : (settledKeys ((jobs.take 6).map (settleMatch matchFetch))).Nodup := by
    show (mapKeys (((jobs.take 6).map (settleMatch matchFetch)).filterMap id)).Nodup
    rw [hfm]
    exact hnd.sublist (filterMap_settleMatch_keys_sublist matchFetch (jobs.take 6))
  rw [buildMatchMap_eq_filterMap _ hndkeys, hfm]
  exact lookup_settled_iff matchFetch (jobs.take 6) hnd k m

/-- C1 witness: with two demo jobs of which only the first match
request succeeds, the page-level error state stays null, via the claim
theorem at concrete inputs. -/
theorem fanout_fault_isolation_witness :
    (loadDashboardData (D := Unit) (B := Unit) (Except.error ()) (Except.ok demoJobs)
        (Except.error ()) demoFetch).error = none :=
  (fanout_fault_isolation (Except.error ()) (Except.error ()) demoJobs demoFetch
    (by decide)).1

/-- C4: the three initial fetches are independently fault-tolerant:
the failing call degrades only its own section (dashboard to null, job
list to the empty list, bulk analysis to null), the surviving sections
receive their fetched values, the other sections do not depend on which
of the two opaque payload fetches failed, and the aggregation itself
never fails. -/
theorem step_one_fault_isolation {D B : Type} (dashR : Except Unit D)
    (jobsR : Except Unit (List ProcessedJob)) (bulkR : Except Unit B)
    (matchFetch : ProcessedJob → Except Unit ResumeJobMatchResult) :
    (loadDashboardData dashR jobsR bulkR matchFetch).error = none ∧
    (dashR = Except.error () →
      (loadDashboardData dashR jobsR bulkR matchFetch).dashboardData = none) ∧
    (∀ d, dashR = Except.ok d →
      (loadDashboardData dashR jobsR bulkR matchFetch).dashboardData = some d) ∧
    (jobsR = Except.error () →
      (loadDashboardData dashR jobsR bulkR matchFetch).recentJobs = [] ∧
      (loadDashboardData dashR jobsR bulkR matchFetch).jobMatches = [] ∧
      (loadDashboardData dashR jobsR bulkR matchFetch).issuedMatchRequests = []) ∧
    (∀ js, jobsR = Except.ok js →
      (loadDashboardData dashR jobsR bulkR matchFetch).recentJobs = js.take 6) ∧
    (bulkR = Except.error () →
      (loadDashboardData dashR jobsR bulkR matchFetch).bulkAnalysis = none) ∧
    (∀ b, bulkR = Except.ok b →
      (loadDashboardData dashR jobsR bulkR matchFetch).bulkAnalysis = some b) ∧
    (∀ (dashR2 : Except Unit D) (bulkR2 : Except Unit B),
      (loadDashboardData dashR2 jobsR bulkR2 matchFetch).recentJobs =
        (loadDashboardData dashR jobsR bulkR matchFetch).recentJobs ∧
      (loadDashboardData dashR2 jobsR bulkR2 matchFetch).jobMatches =
        (loadDashboardData dashR jobsR bulkR matchFetch).jobMatches ∧
      (loadDashboardData dashR2 jobsR bulkR2 matchFetch).issuedMatchRequests =
        (loadDashboardData dashR jobsR bulkR matchFetch).issuedMatchRequests ∧
      (loadDashboardData dashR jobsR bulkR2 matchFetch).dashboardData =
        (loadDashboardData dashR jobsR bulkR matchFetch).dashboardData ∧
      (loadDashboardData dashR2 jobsR bulkR matchFetch).bulkAnalysis =
        (loadDashboardData dashR jobsR bulkR matchFetch).bulkAnalysis) := by
  simp only [loadDashboardData_unfold]
  refine ⟨?_, ?_, ?_, ?_, ?_, ?_, ?_, ?_⟩
  · trivial
  · rintro rfl
    trivial
  · rintro d rfl
    trivial
  · rintro rfl
    refine ⟨?_, ?_, ?_⟩ <;> trivial
  · rintro js rfl
    trivial
  · rintro rfl
    trivial
  · rintro b rfl
    trivial
  · intro dashR2 bulkR2
    refine ⟨?_, ?_, ?_, ?_, ?_⟩ <;> trivial

/-- C4 witness: with the dashboard-summary fetch failing and the other
two succeeding, only the dashboard section degrades to null, via the
claim theorem at concrete inputs. -/
theorem step_one_fault_isolation_witness :
    (loadDashboardData (D := Unit) (B := Unit) (Except.error ()) (Except.ok demoJobs)
        (Except.ok ()) demoFetch).dashboardData = none :=
  (step_one_fault_isolation (Except.error ()) (Except.ok demoJobs) (Except.ok ())
    demoFetch).2.1 rfl

/-- C8: the aggregation displays and issues match-analysis requests
for exactly the first six jobs of the fetched list in order: the
displayed list is the six-element prefix, the issued requests are one
per displayed job in the same order, and both have length
min 6 (number of jobs). -/
theorem display_cap_six {D B : Type} (dashR : Except Unit D) (bulkR : Except Unit B)
    (jobs : List ProcessedJob)
    (matchFetch : ProcessedJob → Except Unit ResumeJobMatchResult) :
    (loadDashboardData dashR (Except.ok jobs) bulkR matchFetch).recentJobs = jobs.take 6 ∧
    (loadDashboardData dashR (Except.ok jobs) bulkR matchFetch).issuedMatchRequests =
      ((loadDashboardData dashR (Except.ok jobs) bulkR matchFetch).recentJobs).map
        (fun j => j.job_id) ∧
    (loadDashboardData dashR (Except.ok jobs) bulkR matchFetch).recentJobs.length =
      min 6 jobs.length ∧
    (loadDashboardData dashR (Except.ok jobs) bulkR matchFetch).issuedMatchRequests.length =
      min 6 jobs.length := by
  rw [loadDashboardData_unfold]
  refine ⟨rfl, rfl, ?_, ?_⟩
  · exact List.length_take 6 jobs
  · rw [List.length_map]
    exact List.length_take 6 jobs

/-- C9: the fold that builds the job-identifier-to-match-result map is
order-independent when the settled job identifiers are pairwise
distinct: permuted settled lists produce maps that agree on every key,
and the built map holds at most one entry per job identifier. -/
theorem match_map_fold_perm_invariant (l1 l2 : List (Option (String × ResumeJobMatchResult)))
    (hperm : l1.Perm l2) (hnd : (settledKeys l1).Nodup) :
    (∀ k, lookupKey (buildMatchMap l1) k = lookupKey (buildMatchMap l2) k) ∧
    (mapKeys (buildMatchMap l1)).Nodup := by
  have hnd2 : (settledKeys l2).Nodup := (settledKeys_perm l1 l2 hperm).nodup hnd
  rw [buildMatchMap_eq_filterMap l1 hnd, buildMatchMap_eq_filterMap l2 hnd2]
  exact ⟨fun k => lookupKey_perm _ _ (hperm.filterMap id) hnd k, hnd⟩

/-- C9 witness: two concrete permuted settled lists with distinct job
identifiers agree at the key j1, via the claim theorem. -/
theorem match_map_fold_perm_invariant_witness :
    lookupKey (buildMatchMap [some ("j1", demoMatch), none, some ("j2", demoMatchB)]) "j1" =
      lookupKey (buildMatchMap [some ("j2", demoMatchB), some ("j1", demoMatch), none]) "j1" :=
  (match_map_fold_perm_invariant
    [some ("j1", demoMatch), none, some ("j2", demoMatchB)]
    [some ("j2", demoMatchB), some ("j1", demoMatch), none]
    (by decide) (by decide)).1 "j1"
